import Mathlib

/-!
Verification of the scoring-and-synthesis pipeline of the multi-agent
investment repository (`investment_company`): the indicator engine
(`data.compute_indicators`), the four scoring agents
(`agents/fundamental.py`, `agents/technical.py`, `agents/sentiment.py`,
`agents/risk.py`), the portfolio synthesizer (`agents/portfolio.py`) and
the backtest evaluator (`reports.py`).

Modelling conventions, used throughout:

* Python floats that can carry IEEE special values are modelled by
  `PyFloat` (rational payload, used where every produced value is exactly
  rational: fundamentals arithmetic and the SMA/EMA/RSI/MACD indicator
  columns) and by `RFloat` (real payload, used where square roots or
  hyperbolic tangents appear: agent scores at the synthesis boundary,
  Bollinger cells, the Sharpe ratio).  Both types have explicit `nan`,
  `pinf`, `ninf` constructors and IEEE-style propagation, mirroring
  numpy/pandas semantics (comparisons with `nan` are false, `x / 0` is
  a signed infinity for `x ≠ 0` and `nan` for `x = 0`).
* A price series is modelled by its list of closing prices (`List ℚ`);
  the agents under verification read only the `close` column.  Division
  in `ℚ` is total (`x / 0 = 0`), so the theorems about the `ℚ`-modelled
  return pipeline carry the data-model invariant `0 < close` as a
  hypothesis, under which the model agrees with the source.
* Timestamps are modelled by list positions; `as_of` (the date of the
  last bar) is modelled by the index of the last bar.
* Rationale strings that the source builds by interpolating numbers into
  fixed templates are modelled by the fixed template text alone; no claim
  under verification depends on the interpolated digits.  Rationale
  strings that the source produces verbatim (the insufficient-history
  and no-price messages of the technical analyst, the error message of
  the portfolio manager) are modelled verbatim.
-/

/-! ### A model of Python floats with rational payload -/

/-- Model of a Python/numpy float whose finite values are exactly
representable as rationals: a finite rational, `+inf`, `-inf` or `nan`. -/
inductive PyFloat where
  | fin (q : ℚ)
  | pinf
  | ninf
  | nan
deriving DecidableEq

/-- True exactly on `nan`; model of `pandas.isna` on a float cell. -/
def PyFloat.isNan : PyFloat → Bool
  | .nan => true
  | _ => false

/-- True exactly on finite values; model of `math.isfinite`. -/
def PyFloat.isFin : PyFloat → Bool
  | .fin _ => true
  | _ => false

/-- IEEE negation. -/
def PyFloat.neg : PyFloat → PyFloat
  | .fin q => .fin (-q)
  | .pinf => .ninf
  | .ninf => .pinf
  | .nan => .nan

/-- IEEE addition: `nan` propagates, opposite infinities give `nan`. -/
def PyFloat.add : PyFloat → PyFloat → PyFloat
  | .nan, _ => .nan
  | _, .nan => .nan
  | .pinf, .ninf => .nan
  | .ninf, .pinf => .nan
  | .pinf, _ => .pinf
  | _, .pinf => .pinf
  | .ninf, _ => .ninf
  | _, .ninf => .ninf
  | .fin a, .fin b => .fin (a + b)

/-- IEEE subtraction. -/
def PyFloat.sub (a b : PyFloat) : PyFloat := a.add b.neg

/-- IEEE multiplication: `nan` propagates, `0 * inf = nan`. -/
def PyFloat.mul : PyFloat → PyFloat → PyFloat
  | .nan, _ => .nan
  | _, .nan => .nan
  | .fin a, .fin b => .fin (a * b)
  | .pinf, .pinf => .pinf
  | .pinf, .ninf => .ninf
  | .ninf, .pinf => .ninf
  | .ninf, .ninf => .pinf
  | .pinf, .fin b => if b = 0 then .nan else if 0 < b then .pinf else .ninf
  | .fin a, .pinf => if a = 0 then .nan else if 0 < a then .pinf else .ninf
  | .ninf, .fin b => if b = 0 then .nan else if 0 < b then .ninf else .pinf
  | .fin a, .ninf => if a = 0 then .nan else if 0 < a then .ninf else .pinf

/-- numpy/pandas elementwise division: `nan` propagates, `x / 0` is a
signed infinity for `x ≠ 0` and `nan` for `x = 0`, `finite / inf = 0`. -/
def PyFloat.div : PyFloat → PyFloat → PyFloat
  | .nan, _ => .nan
  | _, .nan => .nan
  | .fin a, .fin b =>
      if b = 0 then (if a = 0 then .nan else if 0 < a then .pinf else .ninf)
      else .fin (a / b)
  | .fin _, .pinf => .fin 0
  | .fin _, .ninf => .fin 0
  | .pinf, .fin b => if 0 ≤ b then .pinf else .ninf
  | .ninf, .fin b => if 0 ≤ b then .ninf else .pinf
  | .pinf, .pinf => .nan
  | .pinf, .ninf => .nan
  | .ninf, .pinf => .nan
  | .ninf, .ninf => .nan

/-- IEEE `<` as a boolean: every comparison with `nan` is false. -/
def PyFloat.ltb : PyFloat → PyFloat → Bool
  | .nan, _ => false
  | _, .nan => false
  | .fin a, .fin b => decide (a < b)
  | .ninf, .ninf => false
  | .ninf, _ => true
  | _, .ninf => false
  | .pinf, _ => false
  | .fin _, .pinf => true

/-- IEEE `≤` as a boolean: every comparison with `nan` is false. -/
def PyFloat.leb : PyFloat → PyFloat → Bool
  | .nan, _ => false
  | _, .nan => false
  | .fin a, .fin b => decide (a ≤ b)
  | .ninf, _ => true
  | _, .ninf => false
  | _, .pinf => true
  | .pinf, .fin _ => false

/-- IEEE `>` as a boolean. -/
def PyFloat.gtb (a b : PyFloat) : Bool := PyFloat.ltb b a

/-- IEEE `≥` as a boolean. -/
def PyFloat.geb (a b : PyFloat) : Bool := PyFloat.leb b a

/-- Python `min(a, b)`: returns `a` unless `b` compares less than `a`.
In particular `min(nan, y) = nan` and `min(x, nan) = x`. -/
def PyFloat.pymin (a b : PyFloat) : PyFloat := if PyFloat.ltb b a then b else a

/-- `utils.clamp` evaluated on Python floats.  `clamp` tests
`value < lower` then `value > upper`, so `nan` passes both tests and is
returned unchanged. -/
def PyFloat.clamp (v lo hi : PyFloat) : PyFloat :=
  if PyFloat.ltb v lo then lo else if PyFloat.gtb v hi then hi else v

/-! ### A model of Python floats with real payload -/

/-- Model of a Python/numpy float whose finite values are reals (needed
where `sqrt` or `tanh` enter the computation). -/
inductive RFloat where
  | fin (x : ℝ)
  | pinf
  | ninf
  | nan

/-- True exactly on `nan`. -/
def RFloat.isNan : RFloat → Bool
  | .nan => true
  | _ => false

/-- True exactly on finite values; model of `utils.is_finite_number`. -/
def RFloat.isFin : RFloat → Bool
  | .fin _ => true
  | _ => false

/-- Inclusion of the rational-payload float model into the real-payload
one. -/
def PyFloat.toR : PyFloat → RFloat
  | .fin q => .fin (q : ℝ)
  | .pinf => .pinf
  | .ninf => .ninf
  | .nan => .nan

/-- IEEE `<` on real-payload floats, as a proposition (comparisons with
`nan` are false). -/
def RFloat.ltp : RFloat → RFloat → Prop
  | .nan, _ => False
  | _, .nan => False
  | .fin a, .fin b => a < b
  | .ninf, .ninf => False
  | .ninf, _ => True
  | _, .ninf => False
  | .pinf, _ => False
  | .fin _, .pinf => True

/-- `utils.clamp` over the reals (the branch only mirrors the source's
two comparisons; on real payloads this is the usual clamp). -/
noncomputable def rclamp (v lo hi : ℝ) : ℝ :=
  if v < lo then lo else if hi < v then hi else v

/-- `rclamp` always lands in the interval when the bounds are ordered. -/
lemma rclamp_mem (v lo hi : ℝ) (h : lo ≤ hi) :
    lo ≤ rclamp v lo hi ∧ rclamp v lo hi ≤ hi := by
  unfold rclamp
  split
  · exact ⟨le_refl _, h⟩
  · split
    · exact ⟨h, le_refl _⟩
    · constructor
      · linarith [not_lt.mp (by assumption : ¬ v < lo)]
      · linarith [not_lt.mp (by assumption : ¬ hi < v)]

/-- `rclamp` is the identity inside the interval. -/
lemma rclamp_eq_self (v lo hi : ℝ) (h1 : ¬ v < lo) (h2 : ¬ hi < v) :
    rclamp v lo hi = v := by
  unfold rclamp
  rw [if_neg h1, if_neg h2]

/-! ### Series helpers shared by the pipeline -/

/-- Sum of a rational list. -/
def qsum (l : List ℚ) : ℚ := l.foldr (· + ·) 0

/-- Arithmetic mean of a rational list (`0` on the empty list; every use
below guards emptiness exactly as the source does). -/
def qmean (l : List ℚ) : ℚ := qsum l / l.length

/-- Population variance (`ddof = 0`), as used by
`Series.std(ddof=0)` in `technical.py` and `risk.py` before the square
root is taken. -/
def popVar (l : List ℚ) : ℚ :=
  qsum (l.map (fun x => (x - qmean l) ^ 2)) / l.length

/-- Sample variance (`ddof = 1`), the quantity under the square root of
pandas' default `Series.std()` used by `reports.py`; meaningful only for
`2 ≤ l.length` (the caller models the `NaN` of smaller samples). -/
def sampleVar (l : List ℚ) : ℚ :=
  qsum (l.map (fun x => (x - qmean l) ^ 2)) / (l.length - 1 : ℕ)

/-- `Series.pct_change().dropna()` on a close series: one simple return
per consecutive pair.  Faithful to the source for positive closes (the
data-model invariant); `ℚ` makes `x / 0 = 0` where numpy would give a
signed infinity. -/
def pctChangeDrop : List ℚ → List ℚ
  | [] => []
  | c :: rest => List.zipWith (fun prev cur => cur / prev - 1) (c :: rest) rest

/-- `Series.pct_change().fillna(0.0)` on a close series (`reports.py`):
the leading `NaN` becomes `0`, so the output has the input's length. -/
def pctChangeFill : List ℚ → List ℚ
  | [] => []
  | c :: rest => 0 :: pctChangeDrop (c :: rest)

/-! ### The indicator engine: `data.compute_indicators` -/

/-- `Series.rolling(window=w, min_periods=w).mean()`: `nan` until `w`
observations exist, then the trailing-`w` arithmetic mean. -/
def rollingMean (w : Nat) (closes : List ℚ) : List PyFloat :=
  (List.range closes.length).map (fun i =>
    if i + 1 < w then PyFloat.nan
    else PyFloat.fin (qmean ((closes.take (i + 1)).drop (i + 1 - w))))

/-- `Series.rolling(window=w, min_periods=w).std()` (`ddof = 1`), modelled
up to the square root: `nan` until `w` observations exist, then the
trailing sample standard deviation as a real. -/
noncomputable def rollingStd (w : Nat) (closes : List ℚ) : List RFloat :=
  (List.range closes.length).map (fun i =>
    if i + 1 < w then RFloat.nan
    else RFloat.fin (Real.sqrt (sampleVar ((closes.take (i + 1)).drop (i + 1 - w)))))

/-- One step of `Series.ewm(..., adjust=False).mean()`: the state is the
previous smoothed value (`none` while only `nan`s have been seen); a
finite observation seeds or updates it, a `nan` observation leaves the
state unchanged and emits `nan` (matching pandas on series whose only
`nan`s are leading, the only shape produced in this module). -/
def ewmStep (α : ℚ) : Option ℚ → PyFloat → Option ℚ × PyFloat
  | none, .fin v => (some v, .fin v)
  | some s, .fin v => (some (s + α * (v - s)), .fin (s + α * (v - s)))
  | st, _ => (st, .nan)

/-- `Series.ewm(alpha=α, adjust=False).mean()` over a float series. -/
def ewmList (α : ℚ) : Option ℚ → List PyFloat → List PyFloat
  | _, [] => []
  | st, x :: rest =>
      let p := ewmStep α st x
      p.2 :: ewmList α p.1 rest

/-- `Series.ewm(span=w, adjust=False).mean()` on the close series itself
(no `nan` inputs): smoothing factor `2 / (w + 1)`, seeded by the first
observation. -/
def emaSpan (w : Nat) (closes : List ℚ) : List PyFloat :=
  ewmList (2 / (w + 1 : ℚ)) none (closes.map PyFloat.fin)

/-- `Series.diff()`: leading `nan`, then consecutive differences. -/
def diffList : List ℚ → List PyFloat
  | [] => []
  | c :: rest =>
      PyFloat.nan :: List.zipWith (fun prev cur => PyFloat.fin (cur - prev)) (c :: rest) rest

/-- `Series.clip(lower=0)` on a float series (`nan` passes through). -/
def clipLower0 (l : List PyFloat) : List PyFloat :=
  l.map (fun x => match x with
    | .fin q => .fin (max q 0)
    | .pinf => .pinf
    | .ninf => .fin 0
    | .nan => .nan)

/-- `(-Series).clip(... )` pattern of `data.py`: `loss = -delta.clip(upper=0)`. -/
def negClipUpper0 (l : List PyFloat) : List PyFloat :=
  l.map (fun x => match x with
    | .fin q => .fin (-(min q 0))
    | .pinf => .fin 0
    | .ninf => .pinf
    | .nan => .nan)

/-- Elementwise binary operation on two aligned float columns. -/
def zipCol (f : PyFloat → PyFloat → PyFloat) (a b : List PyFloat) : List PyFloat :=
  List.zipWith f a b

/-- The default lookback windows of `compute_indicators`. -/
def defaultWindows : List Nat := [5, 10, 20, 50, 100, 200]

/-- The full column set produced by `compute_indicators`: one SMA and one
EMA column per window, RSI, the MACD family and the two Bollinger bands.
`bbUpper`/`bbLower` carry real payloads because they involve a square
root; every other column is exactly rational. -/
structure ComputedIndicators where
  windows : List Nat
  smaCols : List (Nat × List PyFloat)
  emaCols : List (Nat × List PyFloat)
  rsi : List PyFloat
  macd : List PyFloat
  macdSignal : List PyFloat
  macdHist : List PyFloat
  bbUpper : List RFloat
  bbLower : List RFloat

/-- The `rsi` column of `data.compute_indicators`: up/down deltas, each
smoothed by `ewm(alpha=1/14, adjust=False)`, then
`100 - 100 / (1 + avg_gain / avg_loss)` elementwise with numpy float
semantics (an all-gain prefix gives `avg_loss = 0`, `rs = +inf` and
`rsi = 100`). -/
def rsiCol (closes : List ℚ) : List PyFloat :=
  let delta := diffList closes
  let gain := clipLower0 delta
  let loss := negClipUpper0 delta
  let rollUp := ewmList (1 / 14) none gain
  let rollDown := ewmList (1 / 14) none loss
  let rs := zipCol PyFloat.div rollUp rollDown
  rs.map (fun r => (PyFloat.fin 100).sub ((PyFloat.fin 100).div ((PyFloat.fin 1).add r)))

/-- The MACD line, signal and histogram columns of `compute_indicators`. -/
def macdCols (closes : List ℚ) : List PyFloat × List PyFloat × List PyFloat :=
  let ema12 := emaSpan 12 closes
  let ema26 := emaSpan 26 closes
  let macdLine := zipCol PyFloat.sub ema12 ema26
  let signal := ewmList (2 / 10) none macdLine
  (macdLine, signal, zipCol PyFloat.sub macdLine signal)

/-- Bollinger cell: `sma20 + c * std20` with `nan` propagation (both
inputs are `nan` on exactly the warm-up rows). -/
def bbCell (c : ℝ) : PyFloat → RFloat → RFloat
  | .fin q, .fin s => .fin ((q : ℝ) + c * s)
  | _, _ => .nan

/-- `data.compute_indicators` (lines 60-97 of `data.py`): per-window SMA
and EMA columns, RSI, the MACD family and Bollinger bands over the close
series.  The model requires `20 ∈ windows` as the default configuration
has it (the source would raise a `KeyError` on `indicators["sma_20"]`
otherwise).  Note the source attaches no table-level metadata whatsoever:
`DataFrame.attrs` stays empty, which the `IndAttrs` of `toIndTable` below
records as three absent fields. -/
noncomputable def computeIndicators (closes : List ℚ) (windows : List Nat) :
    ComputedIndicators :=
  let m := macdCols closes
  { windows := windows
    smaCols := windows.map (fun w => (w, rollingMean w closes))
    emaCols := windows.map (fun w => (w, emaSpan w closes))
    rsi := rsiCol closes
    macd := m.1
    macdSignal := m.2.1
    macdHist := m.2.2
    bbUpper := List.zipWith (bbCell 2) (rollingMean 20 closes) (rollingStd 20 closes)
    bbLower := List.zipWith (bbCell (-2)) (rollingMean 20 closes) (rollingStd 20 closes) }

/-- Table-level metadata (`DataFrame.attrs`) as downstream readers see
it: each field is absent (`none`) or present.  `compute_indicators` never
writes any of them; a context may in principle carry a table with them
set, which is why they are modelled as optional. -/
structure IndAttrs where
  insufficientHistory : Option Bool
  observations : Option Nat
  minRequired : Option ℚ
deriving DecidableEq

/-- The empty `attrs` mapping. -/
def IndAttrs.empty : IndAttrs := ⟨none, none, none⟩

/-- One row of an indicator table, restricted to the fields
`TechnicalAnalyst.analyze` reads via `latest_ind.get(...)`; a field is
`none` when its column is absent from the table. -/
structure IndRow where
  sma20 : Option PyFloat
  sma50 : Option PyFloat
  macdHist : Option PyFloat
  rsi : Option PyFloat
  bbUpper : Option RFloat
  bbLower : Option RFloat

/-- An indicator table as carried by an analysis context: its rows (after
`dropna(how="all")`) and its `attrs`. -/
structure IndTable where
  rows : List IndRow
  attrs : IndAttrs

/-- Whether row `i` of the computed table is entirely `nan` — the
criterion `dropna(how="all")` uses to drop it. -/
def rowAllNan (t : ComputedIndicators) (i : Nat) : Bool :=
  (t.smaCols.all (fun c => ((c.2.get? i).getD .nan).isNan)) &&
  (t.emaCols.all (fun c => ((c.2.get? i).getD .nan).isNan)) &&
  ((t.rsi.get? i).getD .nan).isNan &&
  ((t.macd.get? i).getD .nan).isNan &&
  ((t.macdSignal.get? i).getD .nan).isNan &&
  ((t.macdHist.get? i).getD .nan).isNan &&
  (((t.bbUpper.get? i).getD .nan).isNan) &&
  (((t.bbLower.get? i).getD .nan).isNan)

/-- Column lookup for the per-window SMA family. -/
def smaLookup (t : ComputedIndicators) (w : Nat) (i : Nat) : Option PyFloat :=
  (t.smaCols.lookup w).map (fun col => (col.get? i).getD .nan)

/-- The `DataFrame` value `compute_indicators` returns, as the rest of
the pipeline consumes it: rows with all indicators undefined are dropped
(`dropna(how="all")`), and `attrs` is empty because the source never sets
any table-level metadata. -/
noncomputable def toIndTable (t : ComputedIndicators) (n : Nat) : IndTable :=
  { rows :=
      ((List.range n).filter (fun i => !(rowAllNan t i))).map (fun i =>
        { sma20 := smaLookup t 20 i
          sma50 := smaLookup t 50 i
          macdHist := some ((t.macdHist.get? i).getD .nan)
          rsi := some ((t.rsi.get? i).getD .nan)
          bbUpper := some ((t.bbUpper.get? i).getD .nan)
          bbLower := some ((t.bbLower.get? i).getD .nan) })
    attrs := IndAttrs.empty }

/-! ### Analysis context and agent reports -/

/-- The fundamentals mapping, restricted to the five keys
`FundamentalAnalyst.analyze` reads via `fundamentals.get(...)`; a key
holding Python `None` and an absent key behave identically in the source
(`get` returns `None`), so both are `none` here.  Values are modelled as
Python floats so that adversarial `nan`/`inf` inputs are expressible. -/
structure Fundamentals where
  peRatio : Option PyFloat
  pbRatio : Option PyFloat
  dividendYield : Option PyFloat
  debtToAsset : Option PyFloat
  esgScore : Option PyFloat
deriving DecidableEq

/-- The empty fundamentals mapping. -/
def Fundamentals.empty : Fundamentals := ⟨none, none, none, none, none⟩

/-- One news item as `SentimentAnalyst.analyze` reads it:
`item.get("title") or ""` collapses an absent, `None` or empty title to
`""`, which is how the two fields are modelled. -/
structure NewsItem where
  title : String
  summary : String

/-- `agents.base.AnalysisContext`, with the price history modelled by its
close column (`none` for an absent history, `some []` for an empty one). -/
structure AnalysisContext where
  symbol : String
  priceHistory : Option (List ℚ)
  indicators : Option IndTable
  fundamentals : Fundamentals
  news : List NewsItem

/-! ### FundamentalAnalyst -/

/-- The P/E contribution of `FundamentalAnalyst.analyze`:
`+0.25` for `0 < pe < 25`, `-0.15` for `pe >= 40`, else nothing. -/
def peContrib : Option PyFloat → PyFloat
  | none => .fin 0
  | some pe =>
      if (PyFloat.fin 0).ltb pe && pe.ltb (.fin 25) then .fin (1/4)
      else if pe.geb (.fin 40) then .fin (-(3/20))
      else .fin 0

/-- The P/B contribution: `+0.1` for `pb < 4`, `-0.1` for `pb > 8`. -/
def pbContrib : Option PyFloat → PyFloat
  | none => .fin 0
  | some pb =>
      if pb.ltb (.fin 4) then .fin (1/10)
      else if pb.gtb (.fin 8) then .fin (-(1/10))
      else .fin 0

/-- The dividend-yield contribution: `min(dividend_yield * 5, 0.1)`
(Python `min`, so a `nan` yield propagates). -/
def divContrib : Option PyFloat → PyFloat
  | none => .fin 0
  | some dy => PyFloat.pymin (dy.mul (.fin 5)) (.fin (1/10))

/-- The leverage contribution: `+0.15` for `debt_to_asset < 0.6`, else
`-0.15`. -/
def debtContrib : Option PyFloat → PyFloat
  | none => .fin 0
  | some d =>
      if d.ltb (.fin (3/5)) then .fin (3/20) else .fin (-(3/20))

/-- The ESG contribution: `clamp((esg - 50) / 200, -0.05, 0.1)`. -/
def esgContrib : Option PyFloat → PyFloat
  | none => .fin 0
  | some esg =>
      PyFloat.clamp ((esg.sub (.fin 50)).div (.fin 200)) (.fin (-(1/20))) (.fin (1/10))

/-- Report of `FundamentalAnalyst.analyze`.  The rationale is modelled as
the list of fired message templates (numeric interpolation elided). -/
structure FundReport where
  agent : String
  symbol : String
  score : PyFloat
  rationaleParts : List String
  metadata : Fundamentals

/-- `FundamentalAnalyst.analyze` (`fundamental.py` lines 15-66): sum the
five optional contributions starting from `0.0`, then clamp to
`[-1, 1]`.  Each `+=` is an IEEE addition, so a `nan` produced by the
dividend-yield or ESG term propagates through `clamp` unchanged. -/
def fundamentalAnalyze (symbol : String) (f : Fundamentals) : FundReport :=
  let score :=
    ((((((PyFloat.fin 0).add (peContrib f.peRatio)).add
      (pbContrib f.pbRatio)).add
      (divContrib f.dividendYield)).add
      (debtContrib f.debtToAsset)).add
      (esgContrib f.esgScore))
  { agent := "Fundamental Analyst"
    symbol := symbol
    score := PyFloat.clamp score (.fin (-1)) (.fin 1)
    rationaleParts := []
    metadata := f }

/-! ### SentimentAnalyst -/

/-- The positive keyword vocabulary of `sentiment.py`. -/
def positiveKeywords : List String :=
  ["beats", "growth", "surge", "outperform", "bullish", "upgrade", "strong", "record"]

/-- The negative keyword vocabulary of `sentiment.py`. -/
def negativeKeywords : List String :=
  ["miss", "decline", "drop", "lawsuit", "bearish", "downgrade", "weak", "fraud", "risk"]

/-- Python `str.split()` with no argument: split on whitespace runs,
dropping empty tokens. -/
def pySplit (s : String) : List String :=
  (s.split Char.isWhitespace).filter (fun t => t ≠ "")

/-- `sentiment._score_headline`: lower-case, tokenize, count keyword
hits, return `(pos - neg) / max(pos + neg, 1)` and `0.0` when no keyword
fires. -/
def scoreHeadline (headline : String) : ℚ :=
  let words := pySplit headline.toLower
  let posHits : Nat := qcount words positiveKeywords
  let negHits : Nat := qcount words negativeKeywords
  if posHits = 0 ∧ negHits = 0 then 0
  else ((posHits : ℚ) - negHits) / max ((posHits : ℚ) + negHits) 1
where
  /-- Total occurrences in `words` of any keyword from `keys`
  (`sum(counts.get(word, 0) for word in KEYWORDS)`). -/
  qcount (words keys : List String) : Nat :=
    (keys.map (fun k => words.count k)).foldr (· + ·) 0

/-- Report of `SentimentAnalyst.analyze` (rationale elided: it is a
numeric template no claim touches). -/
structure SentReport where
  agent : String
  symbol : String
  score : ℝ
  rationale : String
  newsCount : Nat

/-- The combined text of one news item:
`f"{title} {summary}".strip()`. -/
def combinedText (item : NewsItem) : String :=
  (item.title ++ " " ++ item.summary).trim

/-- `SentimentAnalyst.analyze` (`sentiment.py` lines 50-87): empty news
list gives score `0.0` with rationale `"No recent news"`; otherwise the
per-item scores of the items with non-empty combined text are averaged
and squashed through `tanh` (an all-empty item list short-circuits to
`0.0` before the `tanh`). -/
noncomputable def sentimentAnalyze (symbol : String) (news : List NewsItem) : SentReport :=
  if news.isEmpty then
    { agent := "Sentiment Analyst", symbol := symbol, score := 0
      rationale := "No recent news", newsCount := 0 }
  else
    let scores := (news.filter (fun i => combinedText i ≠ "")).map
      (fun i => scoreHeadline (combinedText i))
    let avg : ℝ := if scores = [] then 0 else Real.tanh ((qmean scores : ℚ) : ℝ)
    { agent := "Sentiment Analyst", symbol := symbol, score := avg
      rationale := "Average sentiment score", newsCount := news.length }

/-! ### RiskOfficer -/

/-- The `RiskOfficer` dataclass configuration with its source defaults. -/
structure RiskOfficer where
  maxWeightPerAsset : ℝ
  maxSectorExposure : ℝ
  targetVolatility : ℝ

/-- The default `RiskOfficer()` instance. -/
noncomputable def RiskOfficer.default : RiskOfficer := ⟨1/5, 1/2, 3/10⟩

/-- Report of `RiskOfficer.analyze` with the three metadata entries the
source publishes (rationale elided: numeric template). -/
structure RiskReport where
  agent : String
  symbol : String
  score : ℝ
  maxWeight : ℝ
  maxSectorExposure : ℝ
  volatility : ℝ

/-- Annualized volatility of a close series as both `risk.py` and
`technical.py` compute it: population standard deviation (`ddof=0`) of
the valid daily returns, times `sqrt(252)`; `0.0` when no valid return
exists. -/
noncomputable def annualizedVol (closes : List ℚ) : ℝ :=
  let returns := pctChangeDrop closes
  if returns.isEmpty then 0
  else Real.sqrt ((popVar returns : ℚ) : ℝ) * Real.sqrt 252

/-- `RiskOfficer.analyze` (`risk.py` lines 19-49): compute the
annualized volatility (`0.0` for an absent or empty history), turn the
excess over the target into a penalty clamped to `[0, 1]`, and report
`clamp(0.5 - penalty, -1, 1)` with the risk limits in metadata. -/
noncomputable def riskAnalyze (cfg : RiskOfficer) (ctx : AnalysisContext) : RiskReport :=
  let volatility : ℝ :=
    match ctx.priceHistory with
    | none => 0
    | some closes => if closes.isEmpty then 0 else annualizedVol closes
  let rawPenalty : ℝ :=
    if 0 < cfg.targetVolatility then
      (volatility - cfg.targetVolatility) / cfg.targetVolatility
    else 0
  let penalty := rclamp rawPenalty 0 1
  { agent := "Risk Officer"
    symbol := ctx.symbol
    score := rclamp ((1/2 : ℝ) - penalty) (-1) 1
    maxWeight := cfg.maxWeightPerAsset
    maxSectorExposure := cfg.maxSectorExposure
    volatility := volatility }

/-! ### TechnicalAnalyst -/

/-- Metadata of a `TechnicalAnalyst` report; each field is `none` when
the branch that produced the report does not put the key in its dict. -/
structure TechMetadata where
  indicatorsAvailable : Option Bool
  pricePoints : Option Nat
  requiredPoints : Option (Option ℚ)
  close : Option ℚ
  volatility : Option ℝ

/-- The metadata of the no-price-history branch: the empty dict. -/
def TechMetadata.empty : TechMetadata := ⟨none, none, none, none, none⟩

/-- Report of `TechnicalAnalyst.analyze`. -/
structure TechReport where
  agent : String
  symbol : String
  score : ℝ
  rationale : String
  metadata : TechMetadata

/-- The verbatim rationale of the insufficient-history branch. -/
def insufficientMsg : String := "Insufficient price history to compute indicators"

/-- The verbatim rationale of the no-price-history branch. -/
def noPriceMsg : String := "No price history available"

/-- The SMA-crossover contribution evaluated on the most recent row:
`+0.3`/`-0.3` when both `sma_20` and `sma_50` are present and non-`nan`,
else nothing. -/
def smaContrib (row : IndRow) : ℚ :=
  match row.sma20, row.sma50 with
  | some f, some s =>
      if !f.isNan && !s.isNan then (if f.gtb s then 3/10 else -(3/10)) else 0
  | _, _ => 0

/-- The MACD-histogram contribution: `+0.2`/`-0.2` when present and
non-`nan`. -/
def macdContrib (row : IndRow) : ℚ :=
  match row.macdHist with
  | some h => if !h.isNan then (if h.gtb (.fin 0) then 1/5 else -(1/5)) else 0
  | none => 0

/-- The RSI banding contribution: `+0.2` on `45 ≤ rsi ≤ 70`, `-0.1` on
`rsi < 35`, `-0.2` on `rsi > 75`. -/
def rsiContrib (row : IndRow) : ℚ :=
  match row.rsi with
  | some r =>
      if !r.isNan then
        (if (PyFloat.fin 45).leb r && r.leb (.fin 70) then 1/5
         else if r.ltb (.fin 35) then -(1/10)
         else if r.gtb (.fin 75) then -(1/5)
         else 0)
      else 0
  | none => 0

/-- Comparisons on real-payload floats are classically decidable (the
source's `if` branches on them). -/
noncomputable instance (a b : RFloat) : Decidable (RFloat.ltp a b) :=
  Classical.propDecidable _

/-- The Bollinger mean-reversion contribution: `+0.1` below the lower
band, `-0.1` above the upper band, when both bands are present and
non-`nan`. -/
noncomputable def bbContrib (row : IndRow) (close : ℚ) : ℝ :=
  match row.bbUpper, row.bbLower with
  | some u, some l =>
      if !u.isNan && !l.isNan then
        (if RFloat.ltp (.fin (close : ℝ)) l then 1/10
         else if RFloat.ltp u (.fin (close : ℝ)) then -(1/10)
         else 0)
      else 0
  | _, _ => 0

/-- `TechnicalAnalyst.analyze` (`technical.py` lines 18-129).  Absent or
empty price history returns the neutral no-price report with an empty
metadata dict; an absent/empty indicator table or a set
`insufficient_history` attr returns the neutral insufficient-history
report with `indicators_available = False`; otherwise the five signed
contributions are evaluated on the last indicator row and the last
close, and their sum is clamped to `[-1, 1]`. -/
noncomputable def technicalAnalyze (ctx : AnalysisContext) : TechReport :=
  match ctx.priceHistory with
  | none =>
      { agent := "Technical Analyst", symbol := ctx.symbol, score := 0
        rationale := noPriceMsg, metadata := TechMetadata.empty }
  | some closes =>
      if closes.isEmpty then
        { agent := "Technical Analyst", symbol := ctx.symbol, score := 0
          rationale := noPriceMsg, metadata := TechMetadata.empty }
      else
        let attrs := match ctx.indicators with
          | some t => t.attrs
          | none => IndAttrs.empty
        let insufficient := attrs.insufficientHistory.getD false
        let tableEmpty := match ctx.indicators with
          | none => true
          | some t => t.rows.isEmpty
        if tableEmpty || insufficient then
          { agent := "Technical Analyst", symbol := ctx.symbol, score := 0
            rationale := insufficientMsg
            metadata :=
              { indicatorsAvailable := some false
                pricePoints := some closes.length
                requiredPoints := some attrs.minRequired
                close := none, volatility := none } }
        else
          let row := (match ctx.indicators with
            | some t => t.rows
            | none => []).getLastD ⟨none, none, none, none, none, none⟩
          let close := closes.getLastD 0
          let volatility := annualizedVol closes
          let volScore := rclamp ((1/5 : ℝ) - volatility) (-(1/5)) (1/5)
          let trend : ℝ :=
            ((smaContrib row + macdContrib row + rsiContrib row : ℚ) : ℝ)
              + bbContrib row close + volScore
          { agent := "Technical Analyst", symbol := ctx.symbol
            score := rclamp trend (-1) 1
            rationale := "trend signals"
            metadata :=
              { indicatorsAvailable := none, pricePoints := none
                requiredPoints := none, close := some close
                volatility := some volatility } }

/-! ### PortfolioManager -/

/-- Finite payload of a real-payload float (`0` on the non-finite
constructors; only read under `isFin`). -/
def RFloat.finVal : RFloat → ℝ
  | .fin x => x
  | _ => 0

/-- An agent report as `PortfolioManager.synthesize` consumes it: the
fields the source reads (`agent`, `score`, `rationale`) plus the one
metadata entry it looks up, `metadata.get("max_weight")` (`none` both
when the report has no metadata dict and when the dict lacks the key,
exactly the two cases the source collapses with its chained `get`s). -/
structure SynthReport where
  agent : String
  symbol : String
  score : RFloat
  rationale : String
  maxWeight : Option ℝ

/-- The `PortfolioManager` dataclass configuration (source defaults:
`max_gross_exposure = 1.0`, `min_confidence = 0.1`). -/
structure PortfolioManager where
  maxGrossExposure : ℝ
  minConfidence : ℝ

/-- The default `PortfolioManager()` instance. -/
noncomputable def PortfolioManager.default : PortfolioManager := ⟨1, 1/10⟩

/-- One order of a decision. -/
structure Order where
  symbol : String
  action : String
  weight : ℝ
  entryRule : String
  stop : ℝ
  takeProfit : ℝ
  rationale : String

/-- A decision as `synthesize` builds it (`as_of` modelled by the index
of the last price bar). -/
structure Decision where
  asOf : Nat
  symbol : String
  compositeScore : ℝ
  orders : List Order
  maxGrossExposure : ℝ
  notes : String
  agentReports : List SynthReport

/-- `utils.safe_mean` as it is reached from `synthesize`: its input list
was already corrected entrywise to finite floats, so its non-finite
filter keeps every element and the function is the guarded arithmetic
mean (`0.0` on an empty list). -/
noncomputable def safeMean (l : List ℝ) : ℝ :=
  if l.isEmpty then 0 else l.sum / l.length

/-- The finite-corrected score `synthesize` feeds into the mean: the
score itself when finite, else `0.0`. -/
noncomputable def correctedScore (r : SynthReport) : ℝ :=
  if r.score.isFin then r.score.finVal else 0

/-- Round-half-even to an integer, the tie-breaking rule of Python's
built-in `round`. -/
noncomputable def roundHalfEven (x : ℝ) : ℤ :=
  if Int.fract x < 1/2 then ⌊x⌋
  else if 1/2 < Int.fract x then ⌊x⌋ + 1
  else if Even ⌊x⌋ then ⌊x⌋ else ⌊x⌋ + 1

/-- Python `round(x, 4)`. -/
noncomputable def round4 (x : ℝ) : ℝ := (roundHalfEven (x * 10000) : ℝ) / 10000

/-- The risk limit `synthesize` uses: the `max_weight` published by the
report named `"Risk Officer"`, falling back to `0.2` when no such report
exists or it publishes none. -/
noncomputable def riskMaxWeight (reports : List SynthReport) : ℝ :=
  match reports.find? (fun r => r.agent = "Risk Officer") with
  | none => 1/5
  | some r => r.maxWeight.getD (1/5)

/-- The order rationale: `"; ".join` of the non-empty report rationales. -/
def joinedRationales (reports : List SynthReport) : String :=
  String.intercalate "; " ((reports.filter (fun r => r.rationale ≠ "")).map (fun r => r.rationale))

/-- `PortfolioManager.synthesize` (`portfolio.py` lines 17-61).  An empty
report list raises `ValueError` (modelled as `Except.error`); otherwise
each score is corrected to `0.0` unless finite, the corrected scores are
averaged, and the average drives the zero-or-one-order decision:
below `min_confidence` no order is emitted; otherwise one order with
weight `clamp(avg, 0, 1) * max_weight` rounded to four decimals and
action `"buy"` for a positive average, `"hold"` otherwise.  The dead
first assignment to `weight` (line 30 of the source, overwritten or
unused on every path) is kept as the unused `w0`.  Building the decision
reads the last timestamp of the price history, which raises on an absent
or empty history (the two remaining error cases). -/
noncomputable def synthesize (pm : PortfolioManager) (reports : List SynthReport)
    (ctx : AnalysisContext) : Except String Decision :=
  if reports.isEmpty then .error "Portfolio manager requires at least one agent report"
  else
    let scores := reports.map correctedScore
    let avgScore := safeMean scores
    let w0 := rclamp avgScore 0 1 * min (1/4 : ℝ) (1/2 - |avgScore - 1/2|)
    let result :=
      if avgScore < pm.minConfidence then
        (([] : List Order), "Confidence below threshold; holding cash", w0)
      else
        let maxW := riskMaxWeight reports
        let weight := rclamp avgScore 0 1 * maxW
        ([{ symbol := ctx.symbol
            action := if 0 < avgScore then "buy" else "hold"
            weight := round4 weight
            entryRule := "SMA20>SMA50 & MACD histogram positive"
            stop := 2/25
            takeProfit := 1/5
            rationale := joinedRationales reports }],
         "Diversify across sectors; keep tech exposure <50%", w0)
    match ctx.priceHistory with
    | none => .error "NoneType object has no attribute index"
    | some [] => .error "index out of range"
    | some closes =>
        .ok { asOf := closes.length - 1
              symbol := ctx.symbol
              compositeScore := avgScore
              orders := result.1
              maxGrossExposure := pm.maxGrossExposure
              notes := result.2.1
              agentReports := reports }

/-! ### BacktestEvaluator: `reports.backtest_portfolio` -/

/-- Insert-or-replace into an association list, preserving first-insert
order as a Python dict does. -/
def upsert : List (String × ℝ) → String → ℝ → List (String × ℝ)
  | [], k, v => [(k, v)]
  | (k', v') :: rest, k, v =>
      if k' = k then (k, v) :: rest else (k', v') :: upsert rest k v

/-- The `weights` dict of `backtest_portfolio`: one entry per buy-order
symbol (later orders overwrite earlier ones with the same symbol), with
the fallback entry `{decision.symbol: 0.0}` when no buy order exists. -/
def weightsDict (d : Decision) : List (String × ℝ) :=
  let m := d.orders.foldl
    (fun m o => if o.action = "buy" then upsert m o.symbol o.weight else m) []
  if m.isEmpty then [(d.symbol, 0)] else m

/-- The effective portfolio weight: `sum(weights.values())`. -/
def effectiveWeight (d : Decision) : ℝ :=
  ((weightsDict d).map (fun p => p.2)).sum

/-- `(1 + returns).cumprod()`. -/
def cumprod (acc : ℚ) : List ℚ → List ℚ
  | [] => []
  | r :: rest => (acc * (1 + r)) :: cumprod (acc * (1 + r)) rest

/-- Running maximum (`Series.cummax()`), seeded by the first element. -/
def runningMax (acc : ℝ) : List ℝ → List ℝ
  | [] => []
  | x :: rest => max acc x :: runningMax (max acc x) rest

/-- `Series.min()` over a list (only applied to non-empty lists; the
source guards emptiness separately). -/
noncomputable def listMin : List ℝ → ℝ
  | [] => 0
  | x :: rest => rest.foldl min x

/-- The backtest report of `reports.backtest_portfolio`, with dates
modelled by bar indices and the singleton `cumulative_returns` dict by
its `"portfolio"` value. -/
structure BacktestOut where
  startIdx : Nat
  endIdx : Nat
  totalReturn : ℝ
  annualizedReturn : ℝ
  sharpe : RFloat
  maxDrawdown : ℝ
  cumulativePortfolio : ℝ

/-- The annualization factor: `52` exactly when the index frequency is
weekly, else `252` (the `weekly` flag models the source's check of the
index `freq` attribute). -/
noncomputable def periodsPerYear (weekly : Bool) : ℝ := if weekly then 52 else 252

/-- The numerator of the Sharpe ratio:
`returns.mean() * periods_per_year * weight`. -/
noncomputable def backtestAvgRet (d : Decision) (closes : List ℚ) (weekly : Bool) : ℝ :=
  ((qmean (pctChangeFill closes) : ℚ) : ℝ) * periodsPerYear weekly * effectiveWeight d

/-- The denominator of the Sharpe ratio:
`returns.std() * np.sqrt(periods_per_year) * max(weight, 1e-9)`.
pandas' default `std()` uses `ddof=1` and is `NaN` on fewer than two
returns; `none` models that `NaN`. -/
noncomputable def backtestVol (d : Decision) (closes : List ℚ) (weekly : Bool) : Option ℝ :=
  let returns := pctChangeFill closes
  if returns.length ≤ 1 then none
  else some (Real.sqrt ((sampleVar returns : ℚ) : ℝ) * Real.sqrt (periodsPerYear weekly)
    * max (effectiveWeight d) (1/1000000000))

/-- `sharpe = float(avg_return / volatility) if volatility else 0.0`:
a `NaN` denominator is Python-truthy, so the division fires and yields
`NaN`; a zero denominator is falsy and short-circuits to `0.0`. -/
noncomputable def backtestSharpe (d : Decision) (closes : List ℚ) (weekly : Bool) : RFloat :=
  match backtestVol d closes weekly with
  | none => .nan
  | some v => if v = 0 then .fin 0 else .fin (backtestAvgRet d closes weekly / v)

/-- `reports.backtest_portfolio` (lines 24-58): effective weight from
the buy orders, daily simple returns with the leading `NaN` filled by
`0`, price-index curve by cumulative product, portfolio curve
`1 + weight * (curve - 1)`, and the four metrics. -/
noncomputable def backtestPortfolio (d : Decision) (closes : List ℚ) (weekly : Bool) :
    BacktestOut :=
  let returns := pctChangeFill closes
  let cumulative := cumprod 1 returns
  let w := effectiveWeight d
  let portfolioCurve : List ℝ := cumulative.map (fun c => 1 + w * ((c : ℝ) - 1))
  let totalReturn := portfolioCurve.getLastD 1 - 1
  let rmax := runningMax (portfolioCurve.headD 1) portfolioCurve
  let drawdown := List.zipWith (fun c m => (c - m) / m) portfolioCurve rmax
  { startIdx := 0
    endIdx := closes.length - 1
    totalReturn := totalReturn
    annualizedReturn := backtestAvgRet d closes weekly
    sharpe := backtestSharpe d closes weekly
    maxDrawdown := if drawdown.isEmpty then 0 else listMin drawdown
    cumulativePortfolio := portfolioCurve.getLastD 1 - 1 }

/-! ### The per-symbol meeting pipeline (`orchestrator.py`) -/

/-- The report list the orchestrator hands to `synthesize`: the default
agent set in source order (Technical, Fundamental, Sentiment, Risk), each
report converted to the shape `synthesize` reads. -/
noncomputable def runAgents (ctx : AnalysisContext) : List SynthReport :=
  let t := technicalAnalyze ctx
  let f := fundamentalAnalyze ctx.symbol ctx.fundamentals
  let s := sentimentAnalyze ctx.symbol ctx.news
  let r := riskAnalyze RiskOfficer.default ctx
  [ { agent := t.agent, symbol := t.symbol, score := .fin t.score
      rationale := t.rationale, maxWeight := none },
    { agent := f.agent, symbol := f.symbol, score := f.score.toR
      rationale := "Limited fundamentals available", maxWeight := none },
    { agent := s.agent, symbol := s.symbol, score := .fin s.score
      rationale := s.rationale, maxWeight := none },
    { agent := r.agent, symbol := r.symbol, score := .fin r.score
      rationale := "Annualized volatility", maxWeight := some r.maxWeight } ]

/-! ### Predicates and concrete instances used by the verification -/

/-- A score that is finite and within `[-1, 1]` — the report invariant
claimed by the spec. -/
def PyFloat.inUnitB : PyFloat → Bool
  | .fin q => decide (-1 ≤ q) && decide (q ≤ 1)
  | _ => false

/-- An optional fundamentals entry that is not the IEEE `nan`. -/
def noNanB : Option PyFloat → Bool
  | some .nan => false
  | _ => true

/-- The data-model price invariant (`close > 0`), vacuous for an absent
history. -/
def validPrices (ctx : AnalysisContext) : Prop :=
  ∀ closes, ctx.priceHistory = some closes → ∀ c ∈ closes, 0 < c

/-- Fundamentals carrying only an adversarial `NaN` dividend yield. -/
def nanFundamentals : Fundamentals := ⟨none, none, some .nan, none, none⟩

/-- A context with no price history at all. -/
def ctxNoPrice : AnalysisContext := ⟨"X", none, none, Fundamentals.empty, []⟩

/-- A context whose price history is present but whose indicator table is
absent. -/
def ctxNoIndicators : AnalysisContext := ⟨"X", some [1], none, Fundamentals.empty, []⟩

/-- The three-bar close series of the end-to-end scenario (and of the
repository's own regression tests in `tests/test_short_history.py`). -/
def closes3 : List ℚ := [100, 101, 102]

/-- The indicator table the source computes for the three-bar series with
the default windows. -/
noncomputable def table3 : IndTable :=
  toIndTable (computeIndicators closes3 defaultWindows) closes3.length

/-- The analysis context of the end-to-end three-bar scenario: empty
fundamentals, empty news. -/
noncomputable def ctx3 : AnalysisContext :=
  ⟨"TEST", some closes3, some table3, Fundamentals.empty, []⟩

/-- The exact value of the `macd_hist` cell on the last row of the
three-bar table. -/
def macdHist3 : ℚ := 505568 / 3080025

/-- The single decision `synthesize` produces in its confident branch. -/
noncomputable def confidentOrder (reports : List SynthReport)
    (symbol : String) : Order :=
  { symbol := symbol
    action := if 0 < safeMean (reports.map correctedScore) then "buy" else "hold"
    weight := round4 (rclamp (safeMean (reports.map correctedScore)) 0 1 * riskMaxWeight reports)
    entryRule := "SMA20>SMA50 & MACD histogram positive"
    stop := 2/25
    takeProfit := 1/5
    rationale := joinedRationales reports }

/-- The decision `synthesize` returns on a non-empty report list and a
non-empty price history. -/
noncomputable def synthDecision (pm : PortfolioManager) (reports : List SynthReport)
    (ctx : AnalysisContext) (closes : List ℚ) : Decision :=
  { asOf := closes.length - 1
    symbol := ctx.symbol
    compositeScore := safeMean (reports.map correctedScore)
    orders :=
      if safeMean (reports.map correctedScore) < pm.minConfidence then []
      else [confidentOrder reports ctx.symbol]
    maxGrossExposure := pm.maxGrossExposure
    notes :=
      if safeMean (reports.map correctedScore) < pm.minConfidence then
        "Confidence below threshold; holding cash"
      else "Diversify across sectors; keep tech exposure <50%"
    agentReports := reports }

/-- A report with a `NaN` score, as the regression test feeds into the
portfolio manager. -/
def nanReport : SynthReport :=
  { agent := "Mock Analyst", symbol := "TEST", score := .nan, rationale := "", maxWeight := none }

/-- A report with a perfect finite score. -/
def fullReport : SynthReport :=
  { agent := "Mock Analyst", symbol := "X", score := .fin 1, rationale := "r", maxWeight := none }

/-- A minimal context with a one-bar price history (for witnesses). -/
def ctxOneBar : AnalysisContext := ⟨"X", some [1], none, Fundamentals.empty, []⟩

/-- A decision carrying no orders at all. -/
def emptyDecision : Decision := ⟨0, "X", 0, [], 1, "", []⟩

/-- The default row fallback used when reading the last indicator row. -/
def defaultRow : IndRow := ⟨none, none, none, none, none, none⟩

/-- The last row of the three-bar indicator table. -/
noncomputable def row3 : IndRow := table3.rows.getLastD defaultRow

/-! ### Shared lemmas -/

/-- On a non-empty report list and a non-empty price history,
`synthesize` succeeds and returns exactly `synthDecision`. -/
lemma synthesize_ok_eq (pm : PortfolioManager) (reports : List SynthReport)
    (ctx : AnalysisContext) (c : ℚ) (cs : List ℚ)
    (h1 : reports ≠ []) (h2 : ctx.priceHistory = some (c :: cs)) :
    synthesize pm reports ctx = .ok (synthDecision pm reports ctx (c :: cs)) := by
  have hne : reports.isEmpty = false := by
    cases reports with
    | nil => exact absurd rfl h1
    | cons a l => rfl
  by_cases hlt : safeMean (reports.map correctedScore) < pm.minConfidence
  · simp [synthesize, synthDecision, confidentOrder, h2, hne, hlt]
  · simp [synthesize, synthDecision, confidentOrder, h2, hne, hlt]

/-- Inversion: a successful `synthesize` forces a non-empty report list,
a non-empty price history, and the `synthDecision` shape. -/
lemma synthesize_ok_inv (pm : PortfolioManager) (reports : List SynthReport)
    (ctx : AnalysisContext) (d : Decision)
    (h : synthesize pm reports ctx = .ok d) :
    reports ≠ [] ∧ ∃ c cs, ctx.priceHistory = some (c :: cs) ∧
      d = synthDecision pm reports ctx (c :: cs) := by
  by_cases hr : reports.isEmpty
  · rw [synthesize] at h
    simp [hr] at h
  · have h1 : reports ≠ [] := by
      cases reports with
      | nil => simp at hr
      | cons a l => exact List.cons_ne_nil a l
    rcases hp : ctx.priceHistory with _ | closes
    · rw [synthesize] at h
      simp [hr, hp] at h
    · cases closes with
      | nil =>
          rw [synthesize] at h
          simp [hr, hp] at h
      | cons c cs =>
          have := synthesize_ok_eq pm reports ctx c cs h1 hp
          rw [this] at h
          exact ⟨h1, c, cs, rfl, (Except.ok.injEq _ _).mp h.symm⟩

/-! ### C4: empty report list -/

/-- C4: for every context, `PortfolioManager.synthesize` applied to an
empty list of agent reports fails with the invalid-input `ValueError`
(modelled by `Except.error`) rather than returning any decision. -/
theorem synthesize_empty_reports_invalid (pm : PortfolioManager) (ctx : AnalysisContext) :
    synthesize pm ([] : List SynthReport) ctx =
      Except.error "Portfolio manager requires at least one agent report" := by
  rw [synthesize]
  rfl

/-! ### C5: non-finite scores are corrected before averaging -/

/-- C5: on any non-empty report list (and a context whose price history
is non-empty, which `synthesize` needs to date the decision), the
composite score is the arithmetic mean of the finite-corrected scores —
each non-finite score replaced by `0.0` — hence finite, no error is
raised, and the orders list is empty exactly when that corrected mean
falls below the confidence threshold. -/
theorem composite_is_corrected_mean (pm : PortfolioManager) (reports : List SynthReport)
    (ctx : AnalysisContext) (c : ℚ) (cs : List ℚ)
    (h1 : reports ≠ []) (h2 : ctx.priceHistory = some (c :: cs)) :
    ∃ d, synthesize pm reports ctx = Except.ok d ∧
      d.compositeScore = (reports.map correctedScore).sum / (reports.length : ℝ) ∧
      (d.orders = [] ↔ d.compositeScore < pm.minConfidence) := by
  refine ⟨_, synthesize_ok_eq pm reports ctx c cs h1 h2, ?_, ?_⟩
  · have hne : (reports.map correctedScore).isEmpty = false := by
      cases reports with
      | nil => exact absurd rfl h1
      | cons a l => rfl
    simp [synthDecision, safeMean, hne]
  · by_cases hlt : safeMean (reports.map correctedScore) < pm.minConfidence
    · simp [synthDecision, hlt]
    · simp [synthDecision, hlt]

/-- C5 witness: a `NaN` report mixed into the pipeline at a concrete
one-bar context. -/
theorem composite_is_corrected_mean_witness :
    ∃ d, synthesize PortfolioManager.default [nanReport] ctxOneBar = Except.ok d ∧
      d.compositeScore = ([nanReport].map correctedScore).sum / (([nanReport].length : ℕ) : ℝ) ∧
      (d.orders = [] ↔ d.compositeScore < PortfolioManager.default.minConfidence) :=
  composite_is_corrected_mean PortfolioManager.default [nanReport] ctxOneBar 1 []
    (List.cons_ne_nil _ _) rfl

/-! ### C6: the confident branch emits exactly one order -/

/-- C6: when the corrected average reaches the confidence threshold,
`synthesize` emits exactly one order whose weight is
`clamp(avg, 0, 1) * max_weight` rounded to four decimals — `max_weight`
being the Risk Officer's published value, `0.2` by default when no Risk
Officer report is present — and whose action is `"buy"` for a positive
average and `"hold"` otherwise; below the threshold no order is
emitted. -/
theorem confident_branch_order (pm : PortfolioManager) (reports : List SynthReport)
    (ctx : AnalysisContext) (c : ℚ) (cs : List ℚ)
    (h1 : reports ≠ []) (h2 : ctx.priceHistory = some (c :: cs)) :
    ∃ d, synthesize pm reports ctx = Except.ok d ∧
      (pm.minConfidence ≤ safeMean (reports.map correctedScore) →
        d.orders =
          [{ symbol := ctx.symbol
             action := if 0 < safeMean (reports.map correctedScore) then "buy" else "hold"
             weight := round4 (rclamp (safeMean (reports.map correctedScore)) 0 1
               * riskMaxWeight reports)
             entryRule := "SMA20>SMA50 & MACD histogram positive"
             stop := 2/25
             takeProfit := 1/5
             rationale := joinedRationales reports }]) ∧
      (safeMean (reports.map correctedScore) < pm.minConfidence → d.orders = []) ∧
      (reports.find? (fun r => r.agent = "Risk Officer") = none →
        riskMaxWeight reports = 1/5) := by
  refine ⟨_, synthesize_ok_eq pm reports ctx c cs h1 h2, ?_, ?_, ?_⟩
  · intro hge
    have hlt : ¬ safeMean (reports.map correctedScore) < pm.minConfidence := not_lt.mpr hge
    simp [synthDecision, hlt, confidentOrder]
  · intro hlt
    simp [synthDecision, hlt]
  · intro hnone
    simp [riskMaxWeight, hnone]

/-- C6 witness: one perfect-score report at a concrete one-bar context. -/
theorem confident_branch_order_witness :
    ∃ d, synthesize PortfolioManager.default [fullReport] ctxOneBar = Except.ok d ∧
      (PortfolioManager.default.minConfidence ≤ safeMean ([fullReport].map correctedScore) →
        d.orders =
          [{ symbol := ctxOneBar.symbol
             action := if 0 < safeMean ([fullReport].map correctedScore) then "buy" else "hold"
             weight := round4 (rclamp (safeMean ([fullReport].map correctedScore)) 0 1
               * riskMaxWeight [fullReport])
             entryRule := "SMA20>SMA50 & MACD histogram positive"
             stop := 2/25
             takeProfit := 1/5
             rationale := joinedRationales [fullReport] }]) ∧
      (safeMean ([fullReport].map correctedScore) < PortfolioManager.default.minConfidence →
        d.orders = []) ∧
      ([fullReport].find? (fun r => r.agent = "Risk Officer") = none →
        riskMaxWeight [fullReport] = 1/5) :=
  confident_branch_order PortfolioManager.default [fullReport] ctxOneBar 1 []
    (List.cons_ne_nil _ _) rfl

/-! ### C10: an emitted order is always a buy -/

/-- C10: with a positive confidence threshold, every order `synthesize`
ever emits has action `"buy"`; the `"hold"` branch is dead because orders
exist only when the average reaches the threshold, which already forces
it above zero. -/
theorem emitted_orders_are_buy (pm : PortfolioManager) (reports : List SynthReport)
    (ctx : AnalysisContext) (d : Decision) (o : Order)
    (hconf : 0 < pm.minConfidence)
    (hok : synthesize pm reports ctx = Except.ok d)
    (ho : o ∈ d.orders) :
    o.action = "buy" := by
  obtain ⟨h1, c, cs, hp, hd⟩ := synthesize_ok_inv pm reports ctx d hok
  subst hd
  by_cases hlt : safeMean (reports.map correctedScore) < pm.minConfidence
  · simp [synthDecision, hlt] at ho
  · simp [synthDecision, hlt] at ho
    subst ho
    have hge := not_lt.mp hlt
    have hpos : 0 < safeMean (reports.map correctedScore) := lt_of_lt_of_le hconf hge
    simp [confidentOrder, hpos]

/-- C10 witness: the concrete order emitted for a perfect-score report
is a buy. -/
theorem emitted_orders_are_buy_witness :
    (confidentOrder [fullReport] "X").action = "buy" :=
  emitted_orders_are_buy PortfolioManager.default [fullReport] ctxOneBar
    (synthDecision PortfolioManager.default [fullReport] ctxOneBar [1])
    (confidentOrder [fullReport] "X")
    (by norm_num [PortfolioManager.default])
    (synthesize_ok_eq PortfolioManager.default [fullReport] ctxOneBar 1 []
      (List.cons_ne_nil _ _) rfl)
    (by
      have hlt : ¬ safeMean ([fullReport].map correctedScore)
          < PortfolioManager.default.minConfidence := by
        norm_num [safeMean, correctedScore, fullReport, RFloat.isFin, RFloat.finVal,
          PortfolioManager.default]
      simp [synthDecision, hlt]
      exact ⟨not_lt.mp hlt, rfl⟩)

/-! ### C7: zero effective weight gives a flat portfolio curve -/

/-- The metric projections of `backtestPortfolio`, spelt out. -/
lemma backtest_totalReturn_eq (d : Decision) (closes : List ℚ) (weekly : Bool) :
    (backtestPortfolio d closes weekly).totalReturn =
      ((cumprod 1 (pctChangeFill closes)).map
        (fun c => 1 + effectiveWeight d * ((c : ℝ) - 1))).getLastD 1 - 1 := rfl

/-- The drawdown projection of `backtestPortfolio`, spelt out. -/
lemma backtest_maxDrawdown_eq (d : Decision) (closes : List ℚ) (weekly : Bool) :
    (backtestPortfolio d closes weekly).maxDrawdown =
      (let pc := (cumprod 1 (pctChangeFill closes)).map
        (fun c => 1 + effectiveWeight d * ((c : ℝ) - 1))
       let dd := List.zipWith (fun c m => (c - m) / m) pc (runningMax (pc.headD 1) pc)
       if dd.isEmpty then (0 : ℝ) else listMin dd) := rfl

/-- With weight `0` the portfolio curve is constantly `1`. -/
lemma map_zero_weight (l : List ℝ) :
    l.map (fun c => 1 + (0 : ℝ) * (c - 1)) = l.map (fun _ => (1 : ℝ)) := by
  induction l with
  | nil => rfl
  | cons a m ih =>
      simp only [List.map_cons]
      rw [ih]
      congr 1
      ring

/-- The last element of a constant-one list defaults to `1`. -/
lemma getLastD_const_one (l : List ℝ) :
    (l.map (fun _ => (1 : ℝ))).getLastD 1 = 1 := by
  induction l with
  | nil => rfl
  | cons a l ih =>
      cases l with
      | nil => rfl
      | cons b m => simpa using ih

/-- The head of a constant-one list defaults to `1`. -/
lemma headD_const_one (l : List ℝ) :
    (l.map (fun _ => (1 : ℝ))).headD 1 = 1 := by
  cases l with
  | nil => rfl
  | cons a m => rfl

/-- The running maximum of a constant-one list seeded by `1` is the list
itself. -/
lemma runningMax_const_one (l : List ℝ) :
    runningMax 1 (l.map (fun _ => (1 : ℝ))) = l.map (fun _ => (1 : ℝ)) := by
  induction l with
  | nil => rfl
  | cons a m ih =>
      simp only [List.map_cons, runningMax, max_self]
      exact congrArg _ ih

/-- Drawdowns of a constant-one curve are all zero. -/
lemma drawdown_const_zero (l : List ℝ) :
    List.zipWith (fun c m => (c - m) / m) (l.map (fun _ => (1 : ℝ)))
      (l.map (fun _ => (1 : ℝ))) = l.map (fun _ => (0 : ℝ)) := by
  induction l with
  | nil => rfl
  | cons a m ih =>
      simp only [List.map_cons, List.zipWith_cons_cons, sub_self, zero_div]
      exact congrArg _ ih

/-- The minimum of a constant-zero list is zero. -/
lemma listMin_const_zero (l : List ℝ) :
    listMin (l.map (fun _ => (0 : ℝ))) = 0 := by
  cases l with
  | nil => rfl
  | cons a m =>
      simp only [List.map_cons, listMin]
      induction m with
      | nil => rfl
      | cons b k ih => simpa using ih

/-- C7: a decision whose effective portfolio weight (the sum over its
buy orders as `backtest_portfolio` collects them) is zero yields, on any
non-empty price series satisfying the data-model invariant `close > 0`,
a backtest report with `total_return = 0` and `max_drawdown = 0`. -/
theorem backtest_zero_weight_flat (d : Decision) (closes : List ℚ) (weekly : Bool)
    (h1 : closes ≠ []) (hpos : ∀ c ∈ closes, 0 < c)
    (hw : effectiveWeight d = 0) :
    (backtestPortfolio d closes weekly).totalReturn = 0 ∧
    (backtestPortfolio d closes weekly).maxDrawdown = 0 := by
  constructor
  · rw [backtest_totalReturn_eq, hw, map_zero_weight, getLastD_const_one]
    ring
  · rw [backtest_maxDrawdown_eq]
    simp only [hw, map_zero_weight]
    rw [headD_const_one, runningMax_const_one, drawdown_const_zero]
    split
    · rfl
    · exact listMin_const_zero _

/-- C7 witness: the empty-orders decision on a concrete two-bar series. -/
theorem backtest_zero_weight_flat_witness :
    (backtestPortfolio emptyDecision [1, 2] false).totalReturn = 0 ∧
    (backtestPortfolio emptyDecision [1, 2] false).maxDrawdown = 0 :=
  backtest_zero_weight_flat emptyDecision [1, 2] false (by decide)
    (by intro c hc; fin_cases hc <;> norm_num)
    (by norm_num [effectiveWeight, weightsDict, emptyDecision, upsert])

/-! ### C8: finiteness of the backtest report -/

/-- `pct_change().fillna(0)` preserves the series length. -/
lemma pctChangeFill_length (closes : List ℚ) :
    (pctChangeFill closes).length = closes.length := by
  cases closes with
  | nil => rfl
  | cons c rest =>
      simp only [pctChangeFill, pctChangeDrop, List.length_cons, List.length_zipWith]
      omega

/-- C8 counterexample: on the valid one-bar series `[100]`, pandas'
sample standard deviation of the single return is `NaN`, which is truthy,
so the guarded division fires and the reported Sharpe ratio is `NaN` —
the claim's \"every numeric field finite for every non-empty series\"
fails. -/
theorem backtest_one_bar_sharpe_nan :
    (backtestPortfolio emptyDecision [100] false).sharpe = RFloat.nan ∧
    (backtestPortfolio emptyDecision [100] false).sharpe.isFin = false := by
  constructor <;> rfl

/-- C8 amended: for a price series with at least two bars (so that the
sample standard deviation of the returns is defined) and positive closes,
the Sharpe ratio is a finite real, and it is exactly `0` whenever its
denominator is zero; the remaining report fields are real-valued by
construction of the model. -/
theorem backtest_sharpe_finite (d : Decision) (closes : List ℚ) (weekly : Bool)
    (h2 : 2 ≤ closes.length) (hpos : ∀ c ∈ closes, 0 < c) :
    (backtestPortfolio d closes weekly).sharpe.isFin = true ∧
    (∀ v, backtestVol d closes weekly = some v → v = 0 →
      (backtestPortfolio d closes weekly).sharpe = RFloat.fin 0) := by
  have hlen : ¬ (pctChangeFill closes).length ≤ 1 := by
    rw [pctChangeFill_length]
    omega
  have hvol : backtestVol d closes weekly =
      some (Real.sqrt ((sampleVar (pctChangeFill closes) : ℚ) : ℝ)
        * Real.sqrt (periodsPerYear weekly) * max (effectiveWeight d) (1/1000000000)) := by
    rw [backtestVol]
    exact if_neg hlen
  have hsh : (backtestPortfolio d closes weekly).sharpe = backtestSharpe d closes weekly := rfl
  constructor
  · rw [hsh, backtestSharpe, hvol]
    split
    · rename_i heq
      exact (Option.some_ne_none _ heq).elim
    · split <;> rfl
  · intro v hv hv0
    rw [hsh, backtestSharpe, hv]
    simp [hv0]

/-- C8 witness: the amended statement at the concrete two-bar series
`[100, 101]` with the empty decision. -/
theorem backtest_sharpe_finite_witness :
    (backtestPortfolio emptyDecision [100, 101] false).sharpe.isFin = true ∧
    (∀ v, backtestVol emptyDecision [100, 101] false = some v → v = 0 →
      (backtestPortfolio emptyDecision [100, 101] false).sharpe = RFloat.fin 0) :=
  backtest_sharpe_finite emptyDecision [100, 101] false (by decide)
    (by intro c hc; fin_cases hc <;> norm_num)

/-! ### C2: the indicator engine never sets the insufficient-history
metadata -/

/-- C2 (code bug): on the three-bar series — shorter than the largest
default window, `200` — the table `compute_indicators` returns carries
no table-level metadata at all: `attrs` has neither
`insufficient_history` nor `observations` nor `min_required`, and the
table itself is non-empty (three rows survive `dropna(how="all")`
because the EMA columns have no warm-up).  The repository's own test
`test_compute_indicators_marks_insufficient_history` asserts
`insufficient_history` is true and `observations = 3` and therefore
fails against this code. -/
theorem indicator_attrs_never_set :
    closes3.length < defaultWindows.getLastD 0 ∧
    table3.attrs.insufficientHistory = none ∧
    table3.attrs.observations = none ∧
    table3.attrs.minRequired = none ∧
    table3.rows.length = 3 := by
  refine ⟨by decide, rfl, rfl, rfl, ?_⟩
  rfl

/-! ### C3: the technical analyst's degenerate branches -/

/-- C3 counterexample: on a context whose price history is absent, the
report's rationale is the no-price message — not a rationale mentioning
insufficient data — and its metadata dict is empty, so
`indicators_available == false` does not hold; the claim's conclusion
fails on one of its own trigger conditions. -/
theorem technical_no_price_shape :
    (technicalAnalyze ctxNoPrice).score = 0 ∧
    (technicalAnalyze ctxNoPrice).rationale = noPriceMsg ∧
    (technicalAnalyze ctxNoPrice).rationale ≠ insufficientMsg ∧
    (technicalAnalyze ctxNoPrice).metadata.indicatorsAvailable ≠ some false :=
  ⟨rfl, rfl, by decide, by decide⟩

/-- C3 amended: when the price history is present and non-empty, and the
indicator table is absent, empty, or flagged insufficient, the technical
analyst returns score `0.0`, the verbatim insufficient-data rationale,
and metadata with `indicators_available = False` and the observation
count — without reading any indicator cell.  (When the price history
itself is absent or empty the source instead returns the no-price report
with an empty metadata dict, per the counterexample.) -/
theorem technical_insufficient_branch (ctx : AnalysisContext) (closes : List ℚ)
    (h2 : ctx.priceHistory = some closes) (h3 : closes ≠ [])
    (hcond : ctx.indicators = none ∨
      ∃ t, ctx.indicators = some t ∧
        (t.rows.isEmpty = true ∨ t.attrs.insufficientHistory.getD false = true)) :
    (technicalAnalyze ctx).score = 0 ∧
    (technicalAnalyze ctx).rationale = insufficientMsg ∧
    (technicalAnalyze ctx).metadata.indicatorsAvailable = some false ∧
    (technicalAnalyze ctx).metadata.pricePoints = some closes.length := by
  have hne : closes.isEmpty = false := by
    cases closes with
    | nil => exact absurd rfl h3
    | cons a l => rfl
  rcases hcond with hnone | ⟨t, ht, hor⟩
  · simp [technicalAnalyze, h2, hne, hnone]
  · rcases hor with hrows | hflag
    · simp [technicalAnalyze, h2, hne, ht, hrows]
    · simp [technicalAnalyze, h2, hne, ht, hflag]

/-- C3 witness: the amended statement at a concrete one-bar context with
no indicator table. -/
theorem technical_insufficient_branch_witness :
    (technicalAnalyze ctxNoIndicators).score = 0 ∧
    (technicalAnalyze ctxNoIndicators).rationale = insufficientMsg ∧
    (technicalAnalyze ctxNoIndicators).metadata.indicatorsAvailable = some false ∧
    (technicalAnalyze ctxNoIndicators).metadata.pricePoints = some ([1] : List ℚ).length :=
  technical_insufficient_branch ctxNoIndicators [1] rfl (by decide) (Or.inl rfl)

/-! ### C1: agent scores are bounded and finite -/

/-- `tanh` maps every real into `[-1, 1]`. -/
lemma tanh_mem_unit (x : ℝ) : -1 ≤ Real.tanh x ∧ Real.tanh x ≤ 1 := by
  have hc := Real.cosh_pos x
  have h1 := Real.sinh_lt_cosh x
  have h2 := Real.sinh_lt_cosh (-x)
  rw [Real.sinh_neg, Real.cosh_neg] at h2
  rw [Real.tanh_eq_sinh_div_cosh]
  constructor
  · rw [le_div_iff hc]
    nlinarith
  · rw [div_le_one hc]
    linarith

/-- Values that are neither `nan` nor `+inf`; the largest class closed
under the fundamental analyst's additions that `clamp` maps into the
unit interval. -/
lemma good_add {a b : PyFloat} (ha : a ≠ .nan ∧ a ≠ .pinf) (hb : b ≠ .nan ∧ b ≠ .pinf) :
    a.add b ≠ .nan ∧ a.add b ≠ .pinf := by
  rcases a with q | _ | _ | _ <;> rcases b with r | _ | _ | _ <;>
    simp_all [PyFloat.add]

/-- The P/E contribution is always a finite constant. -/
lemma peContrib_good (o : Option PyFloat) :
    peContrib o ≠ .nan ∧ peContrib o ≠ .pinf := by
  rcases o with _ | v
  · constructor <;> simp [peContrib]
  · simp only [peContrib]
    split_ifs <;> constructor <;> simp

/-- The P/B contribution is always a finite constant. -/
lemma pbContrib_good (o : Option PyFloat) :
    pbContrib o ≠ .nan ∧ pbContrib o ≠ .pinf := by
  rcases o with _ | v
  · constructor <;> simp [pbContrib]
  · simp only [pbContrib]
    split_ifs <;> constructor <;> simp

/-- The leverage contribution is always a finite constant. -/
lemma debtContrib_good (o : Option PyFloat) :
    debtContrib o ≠ .nan ∧ debtContrib o ≠ .pinf := by
  rcases o with _ | v
  · constructor <;> simp [debtContrib]
  · simp only [debtContrib]
    split_ifs <;> constructor <;> simp

/-- The dividend contribution of a non-`nan` yield is never `nan` nor
`+inf` (an infinite positive yield is capped at `0.1`; an infinite
negative one stays `-inf`). -/
lemma divContrib_good (o : Option PyFloat) (h : noNanB o = true) :
    divContrib o ≠ .nan ∧ divContrib o ≠ .pinf := by
  rcases o with _ | v
  · constructor <;> simp [divContrib]
  · rcases v with q | _ | _ | _
    · simp only [divContrib, PyFloat.mul, PyFloat.pymin]
      split_ifs <;> constructor <;> simp
    · constructor <;> decide
    · constructor <;> decide
    · simp [noNanB] at h

/-- The ESG contribution of a non-`nan` score is always finite. -/
lemma esgContrib_good (o : Option PyFloat) (h : noNanB o = true) :
    esgContrib o ≠ .nan ∧ esgContrib o ≠ .pinf := by
  rcases o with _ | v
  · constructor <;> simp [esgContrib]
  · rcases v with q | _ | _ | _
    · simp only [esgContrib, PyFloat.sub, PyFloat.neg, PyFloat.add, PyFloat.div,
        PyFloat.clamp]
      split_ifs <;> simp_all
    · constructor <;> decide
    · constructor <;> decide
    · simp [noNanB] at h

/-- Clamping a non-`nan`, non-`+inf` value to `[-1, 1]` yields a finite
value inside the interval. -/
lemma clamp_unit_good (p : PyFloat) (h : p ≠ .nan ∧ p ≠ .pinf) :
    (PyFloat.clamp p (.fin (-1)) (.fin 1)).inUnitB = true := by
  rcases p with q | _ | _ | _
  · simp only [PyFloat.clamp, PyFloat.ltb, PyFloat.gtb, PyFloat.inUnitB]
    split_ifs with h1 h2 <;> simp_all <;> constructor <;> linarith
  · exact absurd rfl h.2
  · decide
  · exact absurd rfl h.1

/-- The fundamental score is finite and in `[-1, 1]` whenever the
dividend-yield and ESG entries — the only two whose contributions can
propagate a `nan` — are not `nan`. -/
lemma fundamental_score_unit (sym : String) (f : Fundamentals)
    (hdy : noNanB f.dividendYield = true) (hesg : noNanB f.esgScore = true) :
    (fundamentalAnalyze sym f).score.inUnitB = true := by
  have h0 : (PyFloat.fin 0 : PyFloat) ≠ .nan ∧ (PyFloat.fin 0 : PyFloat) ≠ .pinf := by
    constructor <;> simp
  have h1 := good_add h0 (peContrib_good f.peRatio)
  have h2 := good_add h1 (pbContrib_good f.pbRatio)
  have h3 := good_add h2 (divContrib_good f.dividendYield hdy)
  have h4 := good_add h3 (debtContrib_good f.debtToAsset)
  have h5 := good_add h4 (esgContrib_good f.esgScore hesg)
  exact clamp_unit_good _ h5

/-- C1 counterexample: a fundamentals mapping whose only entry is a
`NaN` dividend yield makes `FundamentalAnalyst.analyze` return a `NaN`
score — `min(nan * 5, 0.1)` is `nan` and `clamp` passes `nan` through —
so the reported score is neither finite nor in `[-1, 1]`. -/
theorem fundamental_nan_score :
    (fundamentalAnalyze "X" nanFundamentals).score = PyFloat.nan ∧
    (fundamentalAnalyze "X" nanFundamentals).score.inUnitB = false := by
  constructor <;> rfl

/-- C1 amended: for every agent and every context that satisfies the
data-model invariants — positive closes, and fundamentals whose
dividend-yield and ESG entries are not `nan` — the reported score is a
finite value in `[-1.0, 1.0]`.  (The real-payload scores of the
technical, sentiment and risk agents are finite by construction of the
model on such inputs.) -/
theorem agent_scores_bounded :
    (∀ sym f, noNanB f.dividendYield = true → noNanB f.esgScore = true →
      (fundamentalAnalyze sym f).score.inUnitB = true) ∧
    (∀ ctx, validPrices ctx →
      -1 ≤ (technicalAnalyze ctx).score ∧ (technicalAnalyze ctx).score ≤ 1) ∧
    (∀ sym news,
      -1 ≤ (sentimentAnalyze sym news).score ∧ (sentimentAnalyze sym news).score ≤ 1) ∧
    (∀ cfg ctx, validPrices ctx →
      -1 ≤ (riskAnalyze cfg ctx).score ∧ (riskAnalyze cfg ctx).score ≤ 1) := by
  refine ⟨fundamental_score_unit, ?_, ?_, ?_⟩
  · intro ctx hv
    rcases ctx with ⟨sym, ph, ind, fnd, nws⟩
    rcases ph with _ | closes
    · constructor <;> norm_num [technicalAnalyze]
    · simp only [technicalAnalyze]
      split
      · constructor <;> norm_num
      · split
        · constructor <;> norm_num
        · exact rclamp_mem _ _ _ (by norm_num)
  · intro sym news
    simp only [sentimentAnalyze]
    split
    · constructor <;> norm_num
    · split
      · constructor <;> norm_num
      · exact tanh_mem_unit _
  · intro cfg ctx hv
    exact rclamp_mem _ _ _ (by norm_num)

/-- C1 witness: the amended statement instantiated at concrete inputs
(empty fundamentals, the no-price context, empty news, the default risk
configuration). -/
theorem agent_scores_bounded_witness :
    (fundamentalAnalyze "X" Fundamentals.empty).score.inUnitB = true ∧
    (-1 ≤ (technicalAnalyze ctxNoPrice).score ∧ (technicalAnalyze ctxNoPrice).score ≤ 1) ∧
    (-1 ≤ (sentimentAnalyze "X" []).score ∧ (sentimentAnalyze "X" []).score ≤ 1) ∧
    (-1 ≤ (riskAnalyze RiskOfficer.default ctxNoPrice).score ∧
      (riskAnalyze RiskOfficer.default ctxNoPrice).score ≤ 1) :=
  ⟨agent_scores_bounded.1 "X" Fundamentals.empty (by decide) (by decide),
   agent_scores_bounded.2.1 ctxNoPrice (fun closes h => nomatch h),
   agent_scores_bounded.2.2.1 "X" [],
   agent_scores_bounded.2.2.2 RiskOfficer.default ctxNoPrice (fun closes h => nomatch h)⟩

/-! ### C9: the three-bar end-to-end scenario -/

/-- `sqrt 252` is under `16`. -/
lemma sqrt252_lt_16 : Real.sqrt 252 < 16 := by
  nlinarith [Real.sq_sqrt (by norm_num : (0:ℝ) ≤ 252), Real.sqrt_nonneg 252]

/-- `sqrt 252` is positive. -/
lemma sqrt252_pos : 0 < Real.sqrt 252 := Real.sqrt_pos.mpr (by norm_num)

/-- The EMA(12) column of the three-bar series, exactly. -/
lemma ema12_3 : emaSpan 12 closes3 = [.fin 100, .fin (1302/13), .fin (16974/169)] := by
  norm_num [emaSpan, ewmList, ewmStep, closes3]

/-- The EMA(26) column of the three-bar series, exactly. -/
lemma ema26_3 : emaSpan 26 closes3 = [.fin 100, .fin (2702/27), .fin (73058/729)] := by
  norm_num [emaSpan, ewmList, ewmStep, closes3]

/-- The MACD line of the three-bar series, exactly. -/
lemma macd3 : (macdCols closes3).1 = [.fin 0, .fin (28/351), .fin (27244/123201)] := by
  simp only [macdCols, ema12_3, ema26_3]
  norm_num [zipCol, PyFloat.sub, PyFloat.neg, PyFloat.add]

/-- The MACD signal line of the three-bar series, exactly. -/
lemma signal3 : (macdCols closes3).2.1 = [.fin 0, .fin (28/1755), .fin (175532/3080025)] := by
  simp only [macdCols, ema12_3, ema26_3]
  norm_num [zipCol, PyFloat.sub, PyFloat.neg, PyFloat.add, ewmList, ewmStep]

/-- The MACD histogram of the three-bar series, exactly; its last cell
`505568/3080025` is positive. -/
lemma hist3 : (macdCols closes3).2.2 = [.fin 0, .fin (112/1755), .fin macdHist3] := by
  have h1 := macd3
  have h2 := signal3
  simp only [macdCols] at h1 h2 ⊢
  rw [h2, h1]
  norm_num [zipCol, PyFloat.sub, PyFloat.neg, PyFloat.add, macdHist3]

/-- The clipped gain series of the three-bar series. -/
lemma gain3 : clipLower0 (diffList closes3) = [.nan, .fin 1, .fin 1] := by
  norm_num [clipLower0, diffList, closes3]

/-- The clipped loss series of the three-bar series. -/
lemma loss3 : negClipUpper0 (diffList closes3) = [.nan, .fin 0, .fin 0] := by
  norm_num [negClipUpper0, diffList, closes3]

/-- The RSI column of the three-bar series: `NaN` on the first row, then
saturated at `100` (`avg_loss = 0`, `rs = +inf`). -/
lemma rsi3 : rsiCol closes3 = [.nan, .fin 100, .fin 100] := by
  simp only [rsiCol, gain3, loss3]
  norm_num [ewmList, ewmStep, zipCol, PyFloat.div, PyFloat.add, PyFloat.sub, PyFloat.neg]

/-- The `macd_hist` cell of the last three-bar row. -/
lemma row3_macdHist : row3.macdHist = some (PyFloat.fin macdHist3) := by
  have h0 : row3.macdHist =
      some (((macdCols closes3).2.2.get? 2).getD .nan) := rfl
  rw [h0, hist3]
  rfl

/-- The `rsi` cell of the last three-bar row. -/
lemma row3_rsi : row3.rsi = some (PyFloat.fin 100) := by
  have h0 : row3.rsi = some ((rsiCol closes3).get? 2 |>.getD .nan) := rfl
  rw [h0, rsi3]
  rfl

/-- The SMA cells of the last three-bar row are warm-up `NaN`s. -/
lemma row3_smas : row3.sma20 = some PyFloat.nan ∧ row3.sma50 = some PyFloat.nan :=
  ⟨rfl, rfl⟩

/-- The Bollinger cells of the last three-bar row are `NaN`. -/
lemma row3_bb : row3.bbUpper = some RFloat.nan ∧ row3.bbLower = some RFloat.nan :=
  ⟨rfl, rfl⟩

/-- The trend contributions on the last three-bar row: SMA crossover
skipped (warm-up `NaN`s), MACD histogram positive (`+0.2`), RSI
overbought (`-0.2`), Bollinger skipped. -/
lemma contribs3 :
    smaContrib row3 = 0 ∧ macdContrib row3 = 1/5 ∧ rsiContrib row3 = -(1/5) ∧
    bbContrib row3 102 = 0 := by
  obtain ⟨hs20, hs50⟩ := row3_smas
  obtain ⟨hbu, hbl⟩ := row3_bb
  refine ⟨?_, ?_, ?_, ?_⟩
  · unfold smaContrib
    rw [hs20, hs50]
    simp [PyFloat.isNan]
  · unfold macdContrib
    rw [row3_macdHist]
    norm_num [PyFloat.isNan, PyFloat.gtb, PyFloat.ltb, macdHist3]
  · unfold rsiContrib
    rw [row3_rsi]
    norm_num [PyFloat.isNan, PyFloat.gtb, PyFloat.ltb, PyFloat.leb]
  · unfold bbContrib
    rw [hbu, hbl]
    simp [RFloat.isNan]

/-- The annualized volatility of the three-bar series, exactly: the
population standard deviation of the two returns `[1/100, 1/101]` is
`1/20200`, annualized by `sqrt 252`. -/
lemma annualizedVol3 : annualizedVol closes3 = Real.sqrt 252 / 20200 := by
  have hret : pctChangeDrop closes3 = [1/100, 1/101] := by
    norm_num [pctChangeDrop, closes3]
  rw [annualizedVol, hret]
  have hvar : popVar [1/100, 1/101] = 1/408040000 := by
    norm_num [popVar, qmean, qsum]
  rw [if_neg (by norm_num), hvar]
  have hcast : ((1/408040000 : ℚ) : ℝ) = (1/20200)^2 := by norm_num
  rw [hcast, Real.sqrt_sq (by norm_num)]
  ring

/-- The technical score on the three-bar context, exactly:
`0.2 − sqrt 252 / 20200 ≈ 0.1992` — not `0.0`, because the computed
table carries no `insufficient_history` flag and is non-empty, so the
analyst walks the full scoring path. -/
lemma tech3_score : (technicalAnalyze ctx3).score = 1/5 - Real.sqrt 252 / 20200 := by
  have h0 : (technicalAnalyze ctx3).score =
      rclamp (((smaContrib row3 + macdContrib row3 + rsiContrib row3 : ℚ) : ℝ)
        + bbContrib row3 102
        + rclamp ((1/5 : ℝ) - annualizedVol closes3) (-(1/5)) (1/5)) (-1) 1 := rfl
  obtain ⟨hsma, hmacd, hrsi, hbb⟩ := contribs3
  rw [h0, hsma, hmacd, hrsi, hbb, annualizedVol3]
  have h16 := sqrt252_lt_16
  have h0' := Real.sqrt_nonneg 252
  have hinner : rclamp ((1/5 : ℝ) - Real.sqrt 252 / 20200) (-(1/5)) (1/5)
      = 1/5 - Real.sqrt 252 / 20200 := by
    apply rclamp_eq_self
    · intro h
      nlinarith
    · intro h
      nlinarith
  rw [hinner]
  have harg : (((0 + 1/5 + -(1/5) : ℚ) : ℝ) + 0 + (1/5 - Real.sqrt 252 / 20200))
      = 1/5 - Real.sqrt 252 / 20200 := by
    push_cast
    ring
  rw [harg]
  apply rclamp_eq_self
  · intro h
    nlinarith
  · intro h
    nlinarith

/-- The risk officer's volatility metadata on the three-bar context is
the same exact value — not the `0.0` the spec and the repository's own
test expect. -/
lemma risk3_vol : (riskAnalyze RiskOfficer.default ctx3).volatility
    = Real.sqrt 252 / 20200 := by
  have h0 : (riskAnalyze RiskOfficer.default ctx3).volatility = annualizedVol closes3 := rfl
  rw [h0, annualizedVol3]

/-- The risk officer's score on the three-bar context is `0.5` (the tiny
volatility is far below the `0.3` target, so the penalty clamps to
zero). -/
lemma risk3_score : (riskAnalyze RiskOfficer.default ctx3).score = 1/2 := by
  have h0 : (riskAnalyze RiskOfficer.default ctx3).score =
      rclamp ((1/2 : ℝ) - rclamp (if (0 : ℝ) < 3/10 then
        (annualizedVol closes3 - 3/10) / (3/10) else 0) 0 1) (-1) 1 := rfl
  rw [h0, if_pos (by norm_num : (0 : ℝ) < 3/10), annualizedVol3]
  have h16 := sqrt252_lt_16
  have h0' := Real.sqrt_nonneg 252
  have hpen : rclamp ((Real.sqrt 252 / 20200 - 3/10) / (3/10)) 0 1 = 0 := by
    unfold rclamp
    rw [if_pos]
    nlinarith
  rw [hpen]
  have hsub : (1/2 - 0 : ℝ) = 1/2 := by ring
  rw [hsub]
  apply rclamp_eq_self
  · intro h
    nlinarith
  · intro h
    nlinarith

/-- The sentiment score on empty news is `0`. -/
lemma sent3_score : (sentimentAnalyze "TEST" ([] : List NewsItem)).score = 0 := rfl

/-- The fundamental score on empty fundamentals is the finite `0`. -/
lemma fund3_score : (fundamentalAnalyze "TEST" Fundamentals.empty).score = PyFloat.fin 0 := by
  norm_num [fundamentalAnalyze, Fundamentals.empty, peContrib, pbContrib, divContrib,
    debtContrib, esgContrib, PyFloat.add, PyFloat.clamp, PyFloat.ltb, PyFloat.gtb]

/-- The fields of the three-bar context. -/
lemma ctx3_fields :
    ctx3.symbol = "TEST" ∧ ctx3.news = ([] : List NewsItem) ∧
    ctx3.fundamentals = Fundamentals.empty ∧ ctx3.priceHistory = some closes3 :=
  ⟨rfl, rfl, rfl, rfl⟩

/-- The corrected score list the portfolio manager sees for the
three-bar context. -/
lemma corrected3 : (runAgents ctx3).map correctedScore =
    [(technicalAnalyze ctx3).score, (((0 : ℚ) : ℝ)), 0,
      (riskAnalyze RiskOfficer.default ctx3).score] := by
  obtain ⟨hsym, hnews, hfund, _⟩ := ctx3_fields
  simp only [runAgents, List.map_cons, List.map_nil, hsym, hnews, hfund]
  simp [correctedScore, RFloat.isFin, RFloat.finVal, PyFloat.toR, fund3_score, sent3_score]

/-- The corrected average on the three-bar context clears the default
confidence threshold. -/
lemma avg3_confident :
    ¬ safeMean ((runAgents ctx3).map correctedScore)
      < PortfolioManager.default.minConfidence := by
  rw [corrected3, tech3_score, risk3_score, safeMean]
  rw [if_neg (by norm_num)]
  have h16 := sqrt252_lt_16
  have h0' := Real.sqrt_nonneg 252
  simp only [List.sum_cons, List.sum_nil, List.length_cons, List.length_nil,
    PortfolioManager.default]
  push_cast
  intro h
  nlinarith

/-- The report list of the three-bar context is non-empty. -/
lemma runAgents3_ne : runAgents ctx3 ≠ [] := by
  simp only [runAgents]
  exact List.cons_ne_nil _ _

/-- C9 (code bug): on the three-bar scenario — `close = [100, 101, 102]`,
empty fundamentals, empty news, default agents — the code returns a
technical score of exactly `0.2 − sqrt 252 / 20200 ≈ 0.1992` (not the
claimed `0.0`), a risk-officer volatility of `sqrt 252 / 20200 ≈ 0.00079`
(not the claimed `0.0`), and a portfolio decision with one (buy) order
(not the claimed empty orders list), because `compute_indicators` never
sets the `insufficient_history` flag the technical analyst would act on;
only `max_gross_exposure = 1.0` behaves as claimed.  The repository's
own tests assert the claimed values and fail against this code. -/
theorem three_bar_pipeline :
    (technicalAnalyze ctx3).score = 1/5 - Real.sqrt 252 / 20200 ∧
    (technicalAnalyze ctx3).score ≠ 0 ∧
    (riskAnalyze RiskOfficer.default ctx3).volatility = Real.sqrt 252 / 20200 ∧
    (riskAnalyze RiskOfficer.default ctx3).volatility ≠ 0 ∧
    ∃ d, synthesize PortfolioManager.default (runAgents ctx3) ctx3 = Except.ok d ∧
      d.orders ≠ [] ∧ d.maxGrossExposure = 1 := by
  have h16 := sqrt252_lt_16
  have hpos := sqrt252_pos
  refine ⟨tech3_score, ?_, risk3_vol, ?_, ?_⟩
  · rw [tech3_score]
    intro h
    nlinarith
  · rw [risk3_vol]
    intro h
    nlinarith
  · refine ⟨_, synthesize_ok_eq PortfolioManager.default (runAgents ctx3) ctx3
      100 [101, 102] runAgents3_ne rfl, ?_, rfl⟩
    simp only [synthDecision]
    rw [if_neg avg3_confident]
    exact List.cons_ne_nil _ _
